import Mathlib

/-!
Shallow embedding of the HomeSync inventory chatbot (`src/app.py`): the
intent dispatcher (`handle_special_queries`), the recipe generator
(`generate_recipe_from_inventory`), the inventory mutation handler
(`update_inventory`), the two-stage generation pipeline (`get_sql_chain`
and `get_response`), and the top-level chat handling step, followed by
theorems settling the specification claims about them.

The relational store is modelled, per the narrow external interface of the
spec (section 6), as the list of rows of the `Inventory` table; `db.run` on
the two fixed SQL texts used by the dispatcher and the recipe generator is
modelled as the corresponding row filter, and arbitrary model-generated SQL
execution inside the generation pipeline is modelled as an abstract
`String to Except` field of the store interface, with `Except.error`
standing for a raised exception.
-/

/-- A row of the `Inventory` table: item name (`Items` column, the natural
key) and quantity (`Quantity` column, a non-negative integer). -/
structure InvRow where
  name : String
  qty : Nat
deriving DecidableEq, Repr

/-- The inventory store state: the rows of the `Inventory` table in table
order. -/
structure Store where
  items : List InvRow
deriving DecidableEq, Repr

/-- Substring test on character lists, mirroring the semantics of the
Python `in` operator on strings: the needle occurs contiguously in the
haystack. -/
def listContainsSub (needle : List Char) : List Char → Bool
  | [] => needle.isPrefixOf ([] : List Char)
  | c :: rest => needle.isPrefixOf (c :: rest) || listContainsSub needle rest

/-- `containsSub hay needle` mirrors the Python expression `needle in hay`
for strings. -/
def containsSub (hay needle : String) : Bool :=
  listContainsSub needle.data hay.data

/-- `startsWith s pre` mirrors the Python expression `s.startswith(pre)`. -/
def startsWith (s pre : String) : Bool :=
  pre.data.isPrefixOf s.data

/-- Python `str.lower()` as used to normalize the user message
(app.py line 153): ASCII lower-casing of every character, written as a
structural map over the character list. -/
def strLower (s : String) : String :=
  ⟨s.data.map Char.toLower⟩

/-- The `greetings` dict of `handle_special_queries` (app.py lines 140-147),
in its insertion order. -/
def greetings : List (String × String) :=
  [("hi", "Hi I am Yokie, your inventory chatbot. How can I help you?"),
   ("hello", "Hi I am Yokie, your inventory chatbot. How can I help you?"),
   ("hey", "Hi I am Yokie, your inventory chatbot. How can I help you?"),
   ("good morning", "Good morning!"),
   ("good afternoon", "Good afternoon!"),
   ("good night", "Good night!")]

/-- The `farewells` list (app.py line 148). -/
def farewells : List String := ["bye", "goodbye", "see you", "later", "quit"]

/-- The `about_bot` list (app.py line 149). -/
def about_bot : List String := ["who are you", "what are you", "what do you do"]

/-- The `thanks` list (app.py line 150). -/
def thanks : List String := ["thanks", "thank you"]

/-- The `generic_queries` list (app.py line 151). -/
def generic_queries : List String :=
  ["how are you", "what's up", "how's it going", "do you love me", "do you hate me", "i love you"]

/-- The rows returned by the direct store read
`SELECT ... FROM Inventory WHERE Quantity > 0` used by the dispatcher and
the recipe generator: all rows whose quantity is positive, in table order. -/
def availableItemRows (db : Store) : List InvRow :=
  db.items.filter (fun r => 0 < r.qty)

/-- The available item names read by `generate_recipe_from_inventory` via
`SELECT Items FROM Inventory WHERE Quantity > 0` (app.py lines 113-120). -/
def availNames (db : Store) : List String :=
  (availableItemRows db).map InvRow.name

/-- The static `recipes` dict of `generate_recipe_from_inventory`
(app.py lines 123-128), in its insertion order: required ingredient names
paired with the recipe name. -/
def recipes : List (List String × String) :=
  [(["apple", "banana"], "Fruit Salad"),
   (["chicken", "potato", "carrot"], "Chicken Stew"),
   (["pasta", "tomato", "cheese"], "Pasta with Tomato Sauce")]

/-- The `for ingredients, recipe_name in recipes.items()` loop of
`generate_recipe_from_inventory` (app.py lines 131-136): return the first
rule all of whose ingredients are among the available item names, formatted
with a comma-separated ingredient list; if none matches, the fixed
no-recipe message. -/
def recipeLoop : List (List String × String) → List String → String
  | [], _ => "No recipe found with the available items."
  | rule :: rest, available_items =>
    if rule.1.all (fun item => available_items.contains item) then
      "Recipe: " ++ rule.2 ++ "\nIngredients: " ++ String.intercalate ", " rule.1
    else recipeLoop rest available_items

/-- `generate_recipe_from_inventory` (app.py lines 111-136): read the item
names with positive quantity; if there are none, the fixed no-items
message; otherwise scan the static recipe table in its defined order. -/
def generate_recipe_from_inventory (db : Store) : String :=
  let available_items := availNames db
  if available_items.isEmpty then "No items available in the inventory."
  else recipeLoop recipes available_items

/-- The body of `handle_special_queries` after the normalization
`user_query_lower = user_query.lower()` (app.py lines 155-200): the
dispatch rules evaluated in source order on the lower-cased message. -/
def handle_special_lower (user_query_lower : String) (db : Store) : Option String :=
  match List.lookup user_query_lower greetings with
  | some reply => some reply
  | none =>
    if farewells.contains user_query_lower then
      some "Goodbye! Have a great day!"
    else if about_bot.contains user_query_lower then
      some "I am an AI assistant here to help you manage your home inventory. Ask me anything about your inventory."
    else if thanks.contains user_query_lower then
      some "You're welcome! If you have any more questions, feel free to ask."
    else if generic_queries.contains user_query_lower then
      some "As an AI assistant, I don't have feelings, but I'm here to help you!"
    else if containsSub user_query_lower "your name" then
      some "I am Yokie - your inventory chatbot."
    else if containsSub user_query_lower "what do you do" then
      some "I am Yokie. I am here to help you with your home inventory."
    else if containsSub user_query_lower "guide me" then
      some "Click on the chatbox below and ask your query. \n                  For example, \"tell me about the items in my inventory\"."
    else if containsSub user_query_lower "steps to use you" then
      some "Click on the chatbox below and ask me about your home inventory."
    else if containsSub user_query_lower "who is your creator" then
      some "I have been created by the team of HomeSync."
    else if containsSub user_query_lower "what can you do" then
      some "I can update the quantity of any items in your inventory, \n                  check for details of items in your inventory, \n                  and provide you with a summarized shopping list."
    else if startsWith user_query_lower "can you" then
      (if containsSub user_query_lower "home inventory" then
        some "Yes- I can assist you with your home inventory."
      else some "No")
    else if user_query_lower == "generate recipe" then
      some (generate_recipe_from_inventory db)
    else if user_query_lower == "show items present" then
      (let available_items := availableItemRows db
      if available_items.isEmpty then some "No items available in the inventory."
      else some ("Items present in inventory:\n" ++
        String.intercalate "\n" (available_items.map (fun r => r.name ++ ": " ++ toString r.qty))))
    else none

/-- `handle_special_queries` (app.py lines 139-200): normalize the raw
message by lower-casing (line 153) and dispatch on the result; `none`
models the Python `return None` sentinel meaning "not handled". -/
def handle_special_queries (user_query : String) (db : Store) : Option String :=
  handle_special_lower (strLower user_query) db

/-- The fixed apology string of the top-level chat handler
(app.py line 267). -/
def apologyMsg : String := "Sorry, I could not understand, try a different query."

/-- The `try ... except` around `get_response` in the top-level chat
handler (app.py lines 264-267): an exceptional pipeline outcome is replaced
with the fixed apology string. -/
def pipelineReply : Except String String → String
  | Except.ok v => v
  | Except.error _ => apologyMsg

/-- The top-level chat handling step (app.py lines 258-267): the dispatcher
result is used when truthy (a non-empty string), otherwise the generation
pipeline is attempted and its exception caught. `pipeline_outcome` is the
outcome of attempting `get_response`; `Except.error` models any exception
raised by a model call or by SQL execution inside it. -/
def chat_step (user_query : String) (db : Store) (pipeline_outcome : Except String String) : String :=
  match handle_special_queries user_query db with
  | some s => if s.isEmpty then pipelineReply pipeline_outcome else s
  | none => pipelineReply pipeline_outcome

/-- A fault injected into the inventory mutation handler: `some e` models
an exception with message `e` raised by the underlying store driver inside
the `try` block of `update_inventory`; `none` models fault-free execution. -/
def StoreFault := Option String

/-- `SELECT * FROM Inventory WHERE Items = %s` followed by `fetchone()`
(app.py lines 278-279): the first row whose name equals `item_name`
exactly. -/
def lookupRow (db : Store) (item_name : String) : Option InvRow :=
  db.items.find? (fun r => r.name == item_name)

/-- `UPDATE Inventory SET Quantity = %s WHERE Items = %s`
(app.py lines 283-284): every row named `item_name` gets the new
quantity. -/
def updateRows (db : Store) (item_name : String) (new_quantity : Nat) : Store :=
  ⟨db.items.map (fun r => if r.name == item_name then InvRow.mk r.name new_quantity else r)⟩

/-- `update_inventory` (app.py lines 273-290): look the item up by exact
name; if present, update and commit, returning the success string; if
absent, return the not-found string; any exception raised by the store is
caught and rendered as an error string. Returns the reply together with
the committed store state. The two `db.engine.raw_connection()` calls in
the source are modelled as handles to the same underlying pooled session,
so the commit publishes the update; a fault leaves the store unchanged
since the transaction is never committed. -/
def update_inventory (fault : Option String) (db : Store) (item_name : String) (new_quantity : Nat) : String × Store :=
  match fault with
  | some e => ("An error occurred: " ++ e, db)
  | none =>
    match lookupRow db item_name with
    | some _ =>
      ("Successfully updated " ++ item_name ++ " quantity to " ++ toString new_quantity ++ ".",
       updateRows db item_name new_quantity)
    | none => ("Item '" ++ item_name ++ "' not found in the inventory.", db)

/-- One turn of the conversation log: an `AIMessage` or a `HumanMessage`
(app.py lines 210-213, 253, 269). -/
inductive ChatMsg where
  | ai : String → ChatMsg
  | human : String → ChatMsg
deriving DecidableEq, Repr

/-- The textual rendering of one message as interpolated into the prompt
templates; models the Python `str()` of a message object. -/
def renderMsg : ChatMsg → String
  | ChatMsg.ai c => "AIMessage(content='" ++ c ++ "')"
  | ChatMsg.human c => "HumanMessage(content='" ++ c ++ "')"

/-- The textual rendering of the conversation history list as interpolated
into the `Conversation History:` slot of both prompt templates; models the
Python `str()` of the list of message objects. -/
def renderHistory (h : List ChatMsg) : String :=
  "[" ++ String.intercalate ", " (h.map renderMsg) ++ "]"

/-- The narrow store interface consumed by the generation pipeline
(spec section 6): `schemaText` models `db.get_table_info()`, and `runSql`
models `db.run` on arbitrary model-generated SQL, with `Except.error`
standing for a raised exception. -/
structure DBI where
  schemaText : String
  runSql : String → Except String String

/-- The Stage A prompt of `get_sql_chain` (app.py lines 22-46) with the
`schema`, `chat_history` and `question` placeholders filled in. -/
def sql_prompt (schema chat_history question : String) : String :=
  "\n    You are an AI data analyst who manages a Home Inventory. You are interacting with a user who is asking you questions about the Home Inventory's database.\n    Based on the table schema below, write a SQL query that would answer the user's question. Take the conversation history into account.\n\n    When asked 'show items present', display all the items with the quantity present and do not generate a food recipe or anything else.\n    When asked for 'shopping list' create a list items from the table whose value is less than 3 , if there\n    are none then say 'you don't need anything currently' and do not give me anything except list of items needed.\n    Also, generate a food recipe from the food items present in Inventory only when asked 'generate recipe' and do not display food recipe for any other query.\n    <SCHEMA>"
  ++ schema ++
  "</SCHEMA>\n    \n    Conversation History: "
  ++ chat_history ++
  "\n    \n    Write only the SQL query and nothing else. Do not wrap the SQL query in any other text, not even backticks. Do not respond with 'based on your SQL query'.\n    \n    For example:\n    Question: which 3 artists have the most tracks?\n    SQL Query: SELECT ArtistId, COUNT(*) as track_count FROM Track GROUP BY ArtistId ORDER BY track_count DESC LIMIT 3;\n    Question: Name 10 artists\n    SQL Query: SELECT Name FROM Artist LIMIT 10;\n    \n    Your turn:\n    \n    Question: "
  ++ question ++
  "\n    SQL Query:\n    "

/-- The Stage B prompt of `get_response` (app.py lines 73-88) with the
`schema`, `chat_history`, `query`, `question` and `response` placeholders
filled in. -/
def response_prompt (schema chat_history query question response : String) : String :=
  "\n    You are an AI data analyst who manages Home Inventory. You are interacting with a user who is asking you questions about the Home Inventory's database.\n    Based on the table schema below, question, SQL query, and SQL response, write a natural language response.\n    \n    When asked 'show items present', just display the items with the quantity.\n    When asked for 'shopping list' create a list items from the table whose value is less than 3 , if there\n    are none then say 'you don't need anything currently' and do not give me anything except list of items needed.\n    Also, generate a food recipe from the food items present in HomeInventory only when asked 'generate recipe' and do not display food recipe for any other query..\n    \n    <SCHEMA>"
  ++ schema ++
  "</SCHEMA>\n\n    Conversation History: "
  ++ chat_history ++
  "\n    SQL Query: <SQL>"
  ++ query ++
  "</SQL>\n    User question: "
  ++ question ++
  "\n    SQL Response: "
  ++ response ++
  "\n    "

/-- Stage A of the generation pipeline, `get_sql_chain` (app.py lines
21-61): the schema is re-read from the store, the prompt is assembled from
schema, rendered history and question, and the model (a deterministic stub
`String to String`) produces the SQL text. -/
def get_sql_chain (db : DBI) (model : String → String) (question : String) (chat_history : List ChatMsg) : String :=
  model (sql_prompt db.schemaText (renderHistory chat_history) question)

/-- `get_response` (app.py lines 70-108): Stage A produces the SQL text,
the store executes it (`Except.error` models a raised exception, which the
chain propagates to the caller), and Stage B renders the result through a
second model call on the Stage B prompt. -/
def get_response (user_query : String) (db : DBI) (chat_history : List ChatMsg) (model : String → String) : Except String String :=
  let query := get_sql_chain db model user_query chat_history
  match db.runSql query with
  | Except.error e => Except.error e
  | Except.ok response =>
    Except.ok (model (response_prompt db.schemaText (renderHistory chat_history) query user_query response))

/-- A concrete store used as a witness input. -/
def exStore : Store := ⟨[InvRow.mk "apple" 5, InvRow.mk "milk" 0]⟩

/-- A concrete store containing a `rice` row, used as a witness input. -/
def riceStore : Store := ⟨[InvRow.mk "rice" 5, InvRow.mk "beans" 2]⟩

/-- A concrete store interface stub used as a witness input. -/
def stubDB : DBI :=
  ⟨"CREATE TABLE Inventory (Items VARCHAR(50), Quantity INT)", fun s => Except.ok s⟩

/-- Every reply in the greeting table is a non-empty string. -/
theorem lookup_greetings_ne_empty {k r : String} (h : List.lookup k greetings = some r) :
    r.isEmpty = false := by
  simp only [greetings, List.lookup] at h
  repeat' split at h
  all_goals cases h <;> rfl

/-- After the `UPDATE ... WHERE Items = name` row map, looking the item up
by exact name yields the row with the new quantity, provided the lookup
succeeded before the update. -/
theorem find_map_update (l : List InvRow) (name : String) (q : Nat)
    (h : (l.find? (fun r => r.name == name)).isSome = true) :
    (l.map (fun r => if r.name == name then InvRow.mk r.name q else r)).find?
      (fun r => r.name == name) = some (InvRow.mk name q) := by
  induction l with
  | nil => simp at h
  | cons a rest ih =>
    simp only [List.map_cons]
    by_cases ha : (a.name == name) = true
    · have hname : a.name = name := by simpa using ha
      have hhead : (if (a.name == name) = true then InvRow.mk a.name q else a) = InvRow.mk a.name q :=
        if_pos ha
      have hstep : List.find? (fun r => r.name == name)
          (InvRow.mk a.name q :: rest.map (fun r => if (r.name == name) = true then InvRow.mk r.name q else r))
          = some (InvRow.mk a.name q) :=
        List.find?_cons_of_pos _ (by simpa using ha)
      rw [hhead, hstep, hname]
    · have hhead : (if (a.name == name) = true then InvRow.mk a.name q else a) = a := if_neg ha
      have hstep : List.find? (fun r => r.name == name)
          (a :: rest.map (fun r => if (r.name == name) = true then InvRow.mk r.name q else r))
          = List.find? (fun r => r.name == name)
              (rest.map (fun r => if (r.name == name) = true then InvRow.mk r.name q else r)) :=
        List.find?_cons_of_neg _ ha
      have hh : List.find? (fun r => r.name == name) (a :: rest)
          = List.find? (fun r => r.name == name) rest :=
        List.find?_cons_of_neg _ ha
      rw [hhead, hstep]
      rw [hh] at h
      exact ih h

/-- The recipe scan loop agrees with `List.find?` over the rule table:
it returns the formatted first rule whose full ingredient list is contained
in the available names, and the fixed no-recipe message when no rule
qualifies. -/
theorem recipeLoop_eq_find (rules : List (List String × String)) (avail : List String) :
    recipeLoop rules avail =
      (match rules.find? (fun rule => rule.1.all (fun i => avail.contains i)) with
       | some rule => "Recipe: " ++ rule.2 ++ "\nIngredients: " ++ String.intercalate ", " rule.1
       | none => "No recipe found with the available items.") := by
  induction rules with
  | nil => rfl
  | cons rule rest ih =>
    by_cases hc : (rule.1.all (fun i => avail.contains i)) = true
    · have hstep : List.find? (fun ru => ru.1.all (fun i => avail.contains i)) (rule :: rest)
          = some rule :=
        List.find?_cons_of_pos _ hc
      simp only [recipeLoop]
      rw [if_pos hc, hstep]
    · have hstep : List.find? (fun ru => ru.1.all (fun i => avail.contains i)) (rule :: rest)
          = List.find? (fun ru => ru.1.all (fun i => avail.contains i)) rest :=
        List.find?_cons_of_neg _ hc
      simp only [recipeLoop]
      rw [if_neg hc, hstep]
      exact ih

/-- If every rule in the table misses at least one ingredient among the
available names, the recipe scan loop returns the fixed no-recipe
message. -/
theorem recipeLoop_no_match (rules : List (List String × String)) (avail : List String)
    (h : ∀ rule ∈ rules, ∃ i ∈ rule.1, avail.contains i = false) :
    recipeLoop rules avail = "No recipe found with the available items." := by
  induction rules with
  | nil => rfl
  | cons rule rest ih =>
    obtain ⟨i, hi, hci⟩ := h rule (List.mem_cons_self _ _)
    have hall : (rule.1.all (fun j => avail.contains j)) = false :=
      List.all_eq_false.mpr ⟨i, hi, by simpa using hci⟩
    simp only [recipeLoop, hall, Bool.false_eq_true, if_false]
    exact ih (fun r hr => h r (List.mem_cons_of_mem _ hr))

/-- The recipe scan loop never returns the empty string. -/
theorem recipeLoop_ne_empty (rules : List (List String × String)) (avail : List String) :
    (recipeLoop rules avail).isEmpty = false := by
  induction rules with
  | nil => rfl
  | cons rule rest ih =>
    simp only [recipeLoop]
    split
    · rw [Bool.eq_false_iff]
      intro hc
      have h2 := (String.isEmpty_iff _).mp hc
      have h3 := congrArg String.data h2
      simp [String.data_append] at h3
    · exact ih

/-- The recipe generator never returns the empty string. -/
theorem generate_recipe_ne_empty (db : Store) :
    (generate_recipe_from_inventory db).isEmpty = false := by
  show (if (availNames db).isEmpty = true then "No items available in the inventory."
        else recipeLoop recipes (availNames db)).isEmpty = false
  by_cases hav : (availNames db).isEmpty = true
  · rw [if_pos hav]
    rfl
  · rw [if_neg hav]
    exact recipeLoop_ne_empty _ _

/-- C1: for every user message not handled by the intent dispatcher, if any
exception is raised while attempting the generation pipeline (by either
model call or by SQL execution), the reply delivered to the user is exactly
the fixed apology string, and the chat handling step returns normally
rather than propagating the exception. -/
theorem chat_pipeline_exception_yields_apology :
    ∀ (m : String) (db : Store) (e : String),
      handle_special_queries m db = none →
      chat_step m db (Except.error e) = "Sorry, I could not understand, try a different query." := by
  intro m db e h
  unfold chat_step
  rw [h]
  rfl

/-- Witness for C1: a concrete unmatched message with a concrete store
exception yields the apology string. -/
theorem chat_pipeline_exception_yields_apology_witness :
    chat_step "what items do i have" exStore (Except.error "connection refused")
      = "Sorry, I could not understand, try a different query." :=
  chat_pipeline_exception_yields_apology "what items do i have" exStore "connection refused" rfl

/-- C2: for every item present in the store (exact name match) and every
target quantity, the mutation handler returns the confirmation string
embedding the item name and new quantity, and a subsequent exact-name read
of that item from the committed store reflects the new quantity. -/
theorem update_existing_item_success :
    ∀ (db : Store) (item_name : String) (new_quantity : Nat) (row : InvRow),
      lookupRow db item_name = some row →
      (update_inventory none db item_name new_quantity).1
          = "Successfully updated " ++ item_name ++ " quantity to " ++ toString new_quantity ++ "."
        ∧ lookupRow (update_inventory none db item_name new_quantity).2 item_name
          = some (InvRow.mk item_name new_quantity) := by
  intro db item_name q row h
  have hs : (db.items.find? (fun r => r.name == item_name)).isSome = true := by
    unfold lookupRow at h
    rw [h]
    rfl
  unfold update_inventory
  rw [h]
  refine ⟨rfl, ?_⟩
  show lookupRow (updateRows db item_name q) item_name = some (InvRow.mk item_name q)
  unfold lookupRow updateRows
  exact find_map_update db.items item_name q hs

/-- Witness for C2: updating the existing item `rice` to quantity 10
returns the confirmation string of the spec example and the committed
store then reads back `rice` with quantity 10. -/
theorem update_existing_item_success_witness :
    (update_inventory none riceStore "rice" 10).1 = "Successfully updated rice quantity to 10."
      ∧ lookupRow (update_inventory none riceStore "rice" 10).2 "rice" = some (InvRow.mk "rice" 10) := by
  have h := update_existing_item_success riceStore "rice" 10 (InvRow.mk "rice" 5) rfl
  refine ⟨?_, h.2⟩
  rw [h.1]
  rfl

/-- C3: for every item name absent from the store the mutation handler
returns exactly the not-found string and leaves the store unchanged, and
for every underlying store exception it returns the error string carrying
the exception detail instead of propagating; these are the only two failure
branches of the handler. -/
theorem update_failure_modes :
    ∀ (db : Store) (item_name : String) (new_quantity : Nat),
      (lookupRow db item_name = none →
        update_inventory none db item_name new_quantity
          = ("Item '" ++ item_name ++ "' not found in the inventory.", db))
      ∧ (∀ e : String, update_inventory (some e) db item_name new_quantity
          = ("An error occurred: " ++ e, db)) := by
  intro db n q
  constructor
  · intro h
    unfold update_inventory
    rw [h]
  · intro e
    rfl

/-- Witness for C3: the missing item `kiwi` of the spec example yields the
not-found string with the store unchanged, and an injected store exception
yields the error string with its detail. -/
theorem update_failure_modes_witness :
    update_inventory none riceStore "kiwi" 3
        = ("Item '" ++ "kiwi" ++ "' not found in the inventory.", riceStore)
      ∧ update_inventory (some "connection lost") riceStore "kiwi" 3
        = ("An error occurred: " ++ "connection lost", riceStore) :=
  ⟨(update_failure_modes riceStore "kiwi" 3).1 rfl,
   (update_failure_modes riceStore "kiwi" 3).2 "connection lost"⟩

/-- C4: the message `show items present` triggers the direct store read of
the rows with positive quantity; an empty result yields the fixed no-items
message, otherwise the header followed by one `name: quantity` line per
row, newline-joined; in particular the store `[(apple, 5), (milk, 0)]`
yields exactly the header line and `apple: 5`. -/
theorem show_items_present_rendering :
    (∀ db : Store,
      handle_special_queries "show items present" db =
        some (if (db.items.filter (fun r => 0 < r.qty)).isEmpty
              then "No items available in the inventory."
              else "Items present in inventory:\n" ++
                String.intercalate "\n"
                  ((db.items.filter (fun r => 0 < r.qty)).map (fun r => r.name ++ ": " ++ toString r.qty))))
    ∧ handle_special_queries "show items present" exStore
        = some "Items present in inventory:\napple: 5" := by
  refine ⟨fun db => ?_, rfl⟩
  rw [apply_ite some]
  rfl

/-- C5: the message `generate recipe` is answered by the recipe generator
without touching the generation pipeline: with no available items it
returns exactly the fixed no-items message; otherwise it returns the first
rule of the static table, in its defined order, whose full ingredient set
is contained in the available item names, formatted with the recipe name
and the comma-separated ingredient list, and the fixed no-recipe message
when no rule qualifies; the delivered reply is independent of the pipeline
outcome, and the spec examples hold concretely. -/
theorem generate_recipe_behavior :
    ∀ db : Store,
      handle_special_queries "generate recipe" db = some (generate_recipe_from_inventory db)
      ∧ (availNames db = [] →
          generate_recipe_from_inventory db = "No items available in the inventory.")
      ∧ (availNames db ≠ [] →
          generate_recipe_from_inventory db =
            (match recipes.find? (fun rule => rule.1.all (fun i => (availNames db).contains i)) with
             | some rule =>
               "Recipe: " ++ rule.2 ++ "\nIngredients: " ++ String.intercalate ", " rule.1
             | none => "No recipe found with the available items."))
      ∧ (∀ p₁ p₂ : Except String String,
          chat_step "generate recipe" db p₁ = chat_step "generate recipe" db p₂)
      ∧ handle_special_queries "generate recipe" ⟨[InvRow.mk "apple" 2, InvRow.mk "banana" 1]⟩
          = some "Recipe: Fruit Salad\nIngredients: apple, banana"
      ∧ handle_special_queries "generate recipe" ⟨[]⟩
          = some "No items available in the inventory." := by
  intro db
  refine ⟨rfl, ?_, ?_, ?_, rfl, rfl⟩
  · intro h
    show (if (availNames db).isEmpty = true then "No items available in the inventory."
          else recipeLoop recipes (availNames db)) = "No items available in the inventory."
    rw [if_pos (by rw [h]; rfl)]
  · intro h
    have hne : (availNames db).isEmpty = false := by
      cases hl : availNames db with
      | nil => exact absurd hl h
      | cons a l => rfl
    show (if (availNames db).isEmpty = true then "No items available in the inventory."
          else recipeLoop recipes (availNames db)) = _
    rw [if_neg (by simp [hne])]
    exact recipeLoop_eq_find recipes (availNames db)
  · intro p₁ p₂
    unfold chat_step
    rw [show handle_special_queries "generate recipe" db
        = some (generate_recipe_from_inventory db) from rfl]
    simp [generate_recipe_ne_empty db]

/-- Witness for C5: the empty store yields the fixed no-items message, and
the store holding apples and bananas yields the Fruit Salad recipe of the
spec example. -/
theorem generate_recipe_behavior_witness :
    generate_recipe_from_inventory ⟨[]⟩ = "No items available in the inventory."
      ∧ generate_recipe_from_inventory ⟨[InvRow.mk "apple" 2, InvRow.mk "banana" 1]⟩
        = "Recipe: Fruit Salad\nIngredients: apple, banana" := by
  constructor
  · exact (generate_recipe_behavior ⟨[]⟩).2.1 rfl
  · have h := (generate_recipe_behavior ⟨[InvRow.mk "apple" 2, InvRow.mk "banana" 1]⟩).2.2.1
      (by decide)
    rw [h]
    rfl

/-- C6: any message whose normalized form starts with `can you` and is not
captured by an earlier dispatch rule is answered affirmatively when it
contains `home inventory` and with the bare string `No` otherwise; in
particular `can you fly` yields exactly `No`. -/
theorem can_you_fallback :
    (∀ (m : String) (db : Store),
      startsWith (strLower m) "can you" = true →
      List.lookup (strLower m) greetings = none →
      farewells.contains (strLower m) = false →
      about_bot.contains (strLower m) = false →
      thanks.contains (strLower m) = false →
      generic_queries.contains (strLower m) = false →
      containsSub (strLower m) "your name" = false →
      containsSub (strLower m) "what do you do" = false →
      containsSub (strLower m) "guide me" = false →
      containsSub (strLower m) "steps to use you" = false →
      containsSub (strLower m) "who is your creator" = false →
      containsSub (strLower m) "what can you do" = false →
      handle_special_queries m db =
        some (if containsSub (strLower m) "home inventory" = true
              then "Yes- I can assist you with your home inventory."
              else "No"))
    ∧ (∀ db : Store, handle_special_queries "can you fly" db = some "No") := by
  constructor
  · intro m db hpre h1 h2 h3 h4 h5 h6 h7 h8 h9 h10 h11
    unfold handle_special_queries handle_special_lower
    rw [h1]
    simp at h2 h3 h4 h5
    simp [h2, h3, h4, h5, h6, h7, h8, h9, h10, h11, hpre]
    rw [apply_ite some]
  · intro db
    rfl

/-- Witness for C6: the concrete message `Can You FLY` satisfies every
hypothesis and is answered with the bare `No`. -/
theorem can_you_fallback_witness :
    handle_special_queries "Can You FLY" exStore = some "No" := by
  have h := can_you_fallback.1 "Can You FLY" exStore rfl rfl rfl rfl rfl rfl rfl rfl rfl rfl rfl rfl
  rw [h]
  rfl

/-- C7 counterexample: the dispatcher does not trim the message before
matching, so the whitespace-padded greeting `  Hi  ` is not matched by the
greeting rule and falls through to the not-handled sentinel, while the
untrimmed `Hi` is matched. -/
theorem dispatch_trimming_counterexample :
    handle_special_queries "  Hi  " exStore = none
      ∧ handle_special_queries "Hi" exStore
        = some "Hi I am Yokie, your inventory chatbot. How can I help you?" :=
  ⟨rfl, rfl⟩

/-- C7 amended: the dispatcher matches against the lower-cased form of the
raw message, with no whitespace trimming: dispatch depends on the message
only through its lower-cased form, a message whose lower-cased (untrimmed)
form equals a greeting key receives that key's fixed reply, and the padded
message `  Hi  ` is matched by no rule. -/
theorem dispatch_lowercase_no_trim :
    (∀ (m₁ m₂ : String) (db : Store), strLower m₁ = strLower m₂ →
        handle_special_queries m₁ db = handle_special_queries m₂ db)
    ∧ (∀ (m : String) (db : Store) (reply : String),
        List.lookup (strLower m) greetings = some reply →
        handle_special_queries m db = some reply)
    ∧ (∀ db : Store, handle_special_queries "  Hi  " db = none) := by
  refine ⟨?_, ?_, ?_⟩
  · intro m₁ m₂ db h
    unfold handle_special_queries
    rw [h]
  · intro m db reply h
    unfold handle_special_queries handle_special_lower
    rw [h]
  · intro db
    rfl

/-- Witness for the amended C7: the upper-cased message `HELLO` is matched
by the greeting rule through lower-casing. -/
theorem dispatch_lowercase_no_trim_witness :
    handle_special_queries "HELLO" exStore
      = some "Hi I am Yokie, your inventory chatbot. How can I help you?" :=
  dispatch_lowercase_no_trim.2.1 "HELLO" exStore
    "Hi I am Yokie, your inventory chatbot. How can I help you?" rfl

/-- C8: a message whose lower-cased form is a greeting key receives that
key's fixed reply; the dispatcher result does not depend on the store
state, and the delivered chat reply does not depend on the generation
pipeline outcome — the pipeline, the model and the store are never
consulted for such a message. -/
theorem greeting_bypasses_pipeline :
    ∀ (m reply : String),
      List.lookup (strLower m) greetings = some reply →
      ∀ (db db' : Store) (p : Except String String),
        handle_special_queries m db = some reply
        ∧ handle_special_queries m db = handle_special_queries m db'
        ∧ chat_step m db p = reply := by
  intro m reply h db db' p
  have h1 : handle_special_queries m db = some reply := by
    unfold handle_special_queries handle_special_lower
    rw [h]
  have h2 : handle_special_queries m db' = some reply := by
    unfold handle_special_queries handle_special_lower
    rw [h]
  refine ⟨h1, h1.trans h2.symm, ?_⟩
  unfold chat_step
  rw [h1]
  simp [lookup_greetings_ne_empty h]

/-- Witness for C8: the greeting `Good Morning` gets its fixed reply and
the chat step delivers it even when the pipeline outcome is an injected
exception. -/
theorem greeting_bypasses_pipeline_witness :
    handle_special_queries "Good Morning" exStore = some "Good morning!"
      ∧ chat_step "Good Morning" exStore (Except.error "model down") = "Good morning!" := by
  have h := greeting_bypasses_pipeline "Good Morning" "Good morning!" rfl exStore riceStore
    (Except.error "model down")
  exact ⟨h.1, h.2.2⟩

/-- C9: the generation pipeline is deterministic in its inputs: Stage A and
the full two-stage response are functions only of the question, the store
state (schema and SQL execution behavior), the supplied conversation
history and the model stub — two invocations with identical inputs produce
identical output, with no hidden session state. -/
theorem pipeline_deterministic :
    ∀ (q : String) (db₁ db₂ : DBI) (h₁ h₂ : List ChatMsg) (model₁ model₂ : String → String),
      db₁ = db₂ → h₁ = h₂ → model₁ = model₂ →
      get_sql_chain db₁ model₁ q h₁ = get_sql_chain db₂ model₂ q h₂
      ∧ get_response q db₁ h₁ model₁ = get_response q db₂ h₂ model₂ := by
  intro q db₁ db₂ h₁ h₂ m₁ m₂ hdb hh hm
  subst hdb
  subst hh
  subst hm
  exact ⟨rfl, rfl⟩

/-- Witness for C9: a concrete unmatched question dispatched twice against
the same stub store, history and deterministic model stub produces the same
response. -/
theorem pipeline_deterministic_witness :
    get_response "how many apples do i have" stubDB [ChatMsg.human "hi"] (fun p => p)
      = get_response "how many apples do i have" stubDB [ChatMsg.human "hi"] (fun p => p) :=
  (pipeline_deterministic "how many apples do i have" stubDB stubDB
    [ChatMsg.human "hi"] [ChatMsg.human "hi"] (fun p => p) (fun p => p) rfl rfl rfl).2

/-- C10: recipe ingredient matching is exact (hence case-sensitive) string
equality against the available item names: whenever every rule has some
ingredient that is not verbatim among the available names — as when the
names differ from the ingredients only in letter case — no rule is
selected and, the inventory being non-empty, the generator returns the
fixed no-recipe message. -/
theorem recipe_matching_case_sensitive :
    ∀ db : Store,
      availNames db ≠ [] →
      (∀ rule ∈ recipes, ∃ i ∈ rule.1, (availNames db).contains i = false) →
      generate_recipe_from_inventory db = "No recipe found with the available items." := by
  intro db hne h
  have hb : (availNames db).isEmpty = false := by
    cases hl : availNames db with
    | nil => exact absurd hl hne
    | cons a l => rfl
  show (if (availNames db).isEmpty = true then "No items available in the inventory."
        else recipeLoop recipes (availNames db)) = _
  rw [if_neg (by simp [hb])]
  exact recipeLoop_no_match recipes (availNames db) h

/-- Witness for C10: the store holding `Apple` and `Banana` — equal to the
Fruit Salad ingredients up to letter case only — selects no rule and
yields the fixed no-recipe message. -/
theorem recipe_matching_case_sensitive_witness :
    (strLower "Apple" = "apple" ∧ strLower "Banana" = "banana")
      ∧ generate_recipe_from_inventory ⟨[InvRow.mk "Apple" 1, InvRow.mk "Banana" 2]⟩
        = "No recipe found with the available items." :=
  ⟨⟨rfl, rfl⟩,
   recipe_matching_case_sensitive ⟨[InvRow.mk "Apple" 1, InvRow.mk "Banana" 2]⟩
     (by decide) (by decide)⟩









